import Mathlib

/-! Verification development for two Terraform AzureRM resource adapters:
the route-table resource (`resource_arm_route_table.go`) and the Service Bus
topic authorization-rule resource.  Each Go handler is shallowly embedded as a
Lean function over an explicit local state (mirroring `schema.ResourceData`)
and a remote-call oracle (mirroring the outcomes of the Azure SDK calls the
handler issues).  Every remote call issued by a handler is also recorded in a
trace so that statements about which calls are (not) issued can be made. -/

set_option autoImplicit false

/-- An error value produced by a remote Azure management API call (the Go
`error` returned by an SDK client method, or by a polling wait on a future). -/
structure RemoteError where
  msg : String
deriving DecidableEq

/-- The errors an adapter operation can return to the host engine.
`wrapped op args inner` models `fmt.Errorf` wrapping a remote error with a
context format string `op` and its identifying arguments (resource name,
resource group, ...); `bare` models `return err` of a remote error with no
wrapping; `importAsExists` models `tf.ImportAsExistsError` (modelled from the
spec: a distinct, explicitly named import-conflict error carrying the resource
type and remote ID; its implementation lives outside the two source files);
`msg` models `fmt.Errorf` with no underlying remote error; `parseFail` models a
resource-ID parse error returned unwrapped; `panicked` models a Go runtime
panic (nil-pointer dereference), which aborts the handler without returning. -/
inductive ProviderError where
  | wrapped (op : String) (args : List String) (inner : RemoteError)
  | bare (inner : RemoteError)
  | importAsExists (resourceType : String) (resourceId : String)
  | msg (s : String)
  | parseFail (s : String)
  | panicked (s : String)
deriving DecidableEq

/-- One entry of the `route` list as stored in local state / desired state.
`schema.ResourceData.Get` yields every declared key, with the zero value `""`
for the optional `next_hop_in_ip_address` when unset. -/
structure RouteConfig where
  name : String
  addressPrefix : String
  nextHopType : String
  nextHopInIpAddress : String
deriving DecidableEq

/-- `network.RoutePropertiesFormat`: `AddressPrefix *string`,
`NextHopType RouteNextHopType` (a string-typed enum), `NextHopIPAddress *string`.
Pointer fields become `Option`. -/
structure RoutePropertiesFormat where
  addressPrefix : Option String
  nextHopType : String
  nextHopIPAddress : Option String
deriving DecidableEq

/-- `network.Route`: `Name *string`, `RoutePropertiesFormat *RoutePropertiesFormat`. -/
structure NetworkRoute where
  name : Option String
  routePropertiesFormat : Option RoutePropertiesFormat
deriving DecidableEq

/-- `network.Subnet`, restricted to the only field the code touches: `ID *string`. -/
structure NetworkSubnet where
  id : Option String
deriving DecidableEq

/-- One entry of the list built by `flattenRouteTableRoutes`: a
`map[string]interface{}` in Go.  A key that the flattener may leave out of the
map is an `Option` field (`none` = key absent); `name` is always written. -/
structure FlatRoute where
  name : String
  addressPrefix : Option String
  nextHopType : Option String
  nextHopInIpAddress : Option String
deriving DecidableEq

/-- The loop body of `expandRouteTableRoutes`: builds one `network.Route` from
one route config.  `AddressPrefix` and `Name` are always set; `NextHopIPAddress`
is set only when the config value is non-empty (`if v != "" { ... = &v }`). -/
def expandRoute (data : RouteConfig) : NetworkRoute :=
  let properties : RoutePropertiesFormat :=
    { addressPrefix := some data.addressPrefix
      nextHopType := data.nextHopType
      nextHopIPAddress :=
        if data.nextHopInIpAddress = "" then none else some data.nextHopInIpAddress }
  { name := some data.name, routePropertiesFormat := some properties }

/-- `expandRouteTableRoutes`: maps the configured route list to API routes and
returns the pair `(routes, nil)` — the error component is the literal `nil` of
the Go `return routes, nil`. -/
def expandRouteTableRoutes (configs : List RouteConfig) :
    List NetworkRoute × Option RemoteError :=
  (configs.map expandRoute, none)

/-- The loop body of `flattenRouteTableRoutes` for one route.  `*route.Name` and
(under `props != nil`) `*props.AddressPrefix` are unconditional dereferences, so
a `nil` pointer there is a Go runtime panic, modelled as `none`.
`next_hop_in_ip_address` is written only when `props.NextHopIPAddress != nil`. -/
def flattenRoute (route : NetworkRoute) : Option FlatRoute :=
  match route.name with
  | none => none
  | some n =>
    match route.routePropertiesFormat with
    | none =>
      some { name := n, addressPrefix := none, nextHopType := none,
             nextHopInIpAddress := none }
    | some props =>
      match props.addressPrefix with
      | none => none
      | some ap =>
        some { name := n, addressPrefix := some ap,
               nextHopType := some props.nextHopType,
               nextHopInIpAddress := props.nextHopIPAddress }

/-- The iteration of `flattenRouteTableRoutes` over a non-nil slice, propagating
a panic (`none`) from any element. -/
def flattenRoutesList : List NetworkRoute → Option (List FlatRoute)
  | [] => some []
  | r :: rest =>
    match flattenRoute r with
    | none => none
    | some f =>
      match flattenRoutesList rest with
      | none => none
      | some fs => some (f :: fs)

/-- `flattenRouteTableRoutes`: a nil input slice yields the (non-nil) empty
result slice; otherwise each route is flattened in order. -/
def flattenRouteTableRoutes (input : Option (List NetworkRoute)) :
    Option (List FlatRoute) :=
  match input with
  | none => some []
  | some routes => flattenRoutesList routes

/-- The iteration of `flattenRouteTableSubnets` over a non-nil slice:
`*subnet.ID` is an unconditional dereference (panic on nil, modelled `none`). -/
def flattenSubnetsList : List NetworkSubnet → Option (List String)
  | [] => some []
  | s :: rest =>
    match s.id with
    | none => none
    | some i =>
      match flattenSubnetsList rest with
      | none => none
      | some is => some (i :: is)

/-- `flattenRouteTableSubnets`: a nil input slice yields the (non-nil) empty
output; otherwise one subnet ID string per subnet, in order. -/
def flattenRouteTableSubnets (input : Option (List NetworkSubnet)) :
    Option (List String) :=
  match input with
  | none => some []
  | some subnets => flattenSubnetsList subnets

example :
    expandRouteTableRoutes [⟨"r1", "10.0.0.0/16", "VnetLocal", ""⟩] =
      ([⟨some "r1", some ⟨some "10.0.0.0/16", "VnetLocal", none⟩⟩], none) := by
  decide

example :
    flattenRouteTableRoutes
        (some (expandRouteTableRoutes [⟨"r1", "10.0.0.0/16", "VnetLocal", ""⟩]).1) =
      some [⟨"r1", some "10.0.0.0/16", some "VnetLocal", none⟩] := by
  decide

/-- A parsed Azure resource ID.  Modelled from the spec: resource identifiers
are opaque, hierarchical path strings whose trailing segments encode the
composite key and the resource group; the parsed form keeps the resource group
and the sequence of key/value path segments. -/
structure AzureResourceID where
  resourceGroup : String
  path : List (String × String)
deriving DecidableEq

/-- Pairs up the segments of a path component list: `[k1, v1, k2, v2, ...]`. -/
def segmentPairs : List String → List (String × String)
  | [] => []
  | [_] => []
  | k :: v :: rest => (k, v) :: segmentPairs rest

/-- Splits a character list at every occurrence of `sep` (kernel-evaluable
replacement for the library string splitter). -/
def splitChars (sep : Char) : List Char → List (List Char)
  | [] => [[]]
  | c :: rest =>
    let r := splitChars sep rest
    if c = sep then [] :: r
    else
      match r with
      | [] => [[c]]
      | seg :: segs => (c :: seg) :: segs

/-- Splits a string on a separator character. -/
def splitOnChar (sep : Char) (s : String) : List String :=
  (splitChars sep s.data).map (fun cs => String.mk cs)

/-- Modelled from the spec: `parseAzureResourceID` (an ID-parsing helper outside
the two source files) splits the `/`-separated hierarchical identifier into
key/value segment pairs, failing on a malformed (odd-segment) path, and reads
the resource group from the `resourceGroups` segment. -/
def parseAzureResourceID (id : String) : Except String AzureResourceID :=
  let components := (splitOnChar '/' id).filter (fun c => c ≠ "")
  if components.length % 2 ≠ 0 then
    .error "the number of path segments is not divisible by 2"
  else
    let pairs := segmentPairs components
    .ok { resourceGroup := ((pairs.lookup "resourceGroups").getD ""), path := pairs }

/-- `id.Path[key]` — the Go map lookup, returning the zero value `""` when the
key is absent. -/
def pathValue (rid : AzureResourceID) (key : String) : String :=
  (rid.path.lookup key).getD ""

/-- Modelled from the spec: the location normalization helper (outside the two
source files) lower-cases the location and strips spaces. -/
def azureRMNormalizeLocation (input : String) : String :=
  String.mk (((input.data).map Char.toLower).filter (fun c => c ≠ ' '))

example :
    parseAzureResourceID
        "/subscriptions/s1/resourceGroups/g1/providers/Microsoft.Network/routeTables/rt1" =
      .ok { resourceGroup := "g1",
            path := [("subscriptions", "s1"), ("resourceGroups", "g1"),
                     ("providers", "Microsoft.Network"), ("routeTables", "rt1")] } := by
  rfl

/-- The local state (`schema.ResourceData`) of a route-table resource instance.
`isNewResource` mirrors `d.IsNewResource()`; `routes` is what `d.Get("route")`
yields (every key present, optional keys zero-filled). -/
structure RouteTableState where
  id : String
  isNewResource : Bool
  name : String
  resourceGroupName : String
  location : String
  routes : List RouteConfig
  disableBgpRoutePropagation : Bool
  subnets : List String
  tags : List (String × String)
deriving DecidableEq

/-- The response struct of `routeTablesClient.Get`: the fields the handlers
touch (`ID`, `Location`, `RouteTablePropertiesFormat`, `Tags`), pointers as
`Option`. -/
structure RouteTablePropsResp where
  disableBgpRoutePropagation : Option Bool
  routes : Option (List NetworkRoute)
  subnets : Option (List NetworkSubnet)
deriving DecidableEq

/-- A `network.RouteTable` value as returned by `Get`. -/
structure RouteTableResp where
  id : Option String
  location : Option String
  properties : Option RouteTablePropsResp
  tags : List (String × String)
deriving DecidableEq

/-- The outcome of one `Get` call: success with a payload, an error whose
response is a 404 (`utils.ResponseWasNotFound` holds — modelled from the spec
as the classifier of a not-found response), or any other error. -/
inductive RTGetOutcome where
  | ok (resp : RouteTableResp)
  | notFound (e : RemoteError)
  | err (e : RemoteError)
deriving DecidableEq

/-- The outcome of the `Delete` call: success, an error whose future response
is a 404 (`response.WasNotFound`), or any other error. -/
inductive RTDeleteOutcome where
  | ok
  | notFound (e : RemoteError)
  | err (e : RemoteError)
deriving DecidableEq

/-- The `network.RouteTable` request body built by the create/update handler. -/
structure NetworkRouteTableProps where
  routes : Option (List NetworkRoute)
  disableBgpRoutePropagation : Option Bool
deriving DecidableEq

/-- The request struct passed to `CreateOrUpdate`. -/
structure NetworkRouteTable where
  name : Option String
  location : Option String
  properties : Option NetworkRouteTableProps
  tags : List (String × String)
deriving DecidableEq

/-- A remote call issued by a route-table handler, as recorded in the trace. -/
inductive RTCall where
  | get (resGroup name : String)
  | createOrUpdate (resGroup name : String) (body : NetworkRouteTable)
  | delete (resGroup name : String)
deriving DecidableEq

/-- The oracle fixing the outcome of each remote call site a route-table
handler can reach: the existence-probe `Get`, `CreateOrUpdate`, the wait on its
future, the post-create re-fetch `Get`, the `Get` inside `Read`, `Delete`, and
the wait on the delete future. -/
structure RTEnv where
  probeGet : RTGetOutcome
  createOrUpdate : Option RemoteError
  createWait : Option RemoteError
  finalGet : RTGetOutcome
  readGet : RTGetOutcome
  deleteCall : RTDeleteOutcome
  deleteWait : Option RemoteError
deriving DecidableEq

/-- What one handler invocation produced: the issued remote calls in order, the
returned error (`none` = the Go `nil`), and the final local state. -/
structure Outcome (Call State : Type) where
  calls : List Call
  result : Option ProviderError
  state : State
deriving DecidableEq

/-- Converts one flattened route map back to the stored schema shape: keys the
flattener left out read back as the schema zero value `""`. -/
def storedRoute (f : FlatRoute) : RouteConfig :=
  { name := f.name, addressPrefix := f.addressPrefix.getD "",
    nextHopType := f.nextHopType.getD "",
    nextHopInIpAddress := f.nextHopInIpAddress.getD "" }

/-- `resourceArmRouteTableRead`: parses the ID, fetches the route table —
not-found clears the ID and succeeds, any other error is wrapped — then
refreshes name, resource group, location (when present, normalized),
BGP flag, routes, subnets and tags.  (`d.Set` on a well-typed value returns
`nil`, so the `d.Set` error branches are not represented.) -/
def resourceArmRouteTableRead (env : RTEnv) (d : RouteTableState) :
    Outcome RTCall RouteTableState :=
  match parseAzureResourceID d.id with
  | .error s => ⟨[], some (.parseFail s), d⟩
  | .ok rid =>
    let resGroup := rid.resourceGroup
    let name := pathValue rid "routeTables"
    let calls := [RTCall.get resGroup name]
    match env.readGet with
    | .notFound _ => ⟨calls, none, { d with id := "" }⟩
    | .err e =>
      ⟨calls, some (.wrapped "Error making Read request on Azure Route Table" [name] e), d⟩
    | .ok resp =>
      let d1 := { d with name := name, resourceGroupName := resGroup }
      let d2 :=
        match resp.location with
        | some loc => { d1 with location := azureRMNormalizeLocation loc }
        | none => d1
      match resp.properties with
      | none => ⟨calls, none, { d2 with tags := resp.tags }⟩
      | some props =>
        let d3 := { d2 with
          disableBgpRoutePropagation := props.disableBgpRoutePropagation.getD false }
        match flattenRouteTableRoutes props.routes with
        | none => ⟨calls, some (.panicked "nil dereference in flattenRouteTableRoutes"), d3⟩
        | some flats =>
          let d4 := { d3 with routes := flats.map storedRoute }
          match flattenRouteTableSubnets props.subnets with
          | none =>
            ⟨calls, some (.panicked "nil dereference in flattenRouteTableSubnets"), d4⟩
          | some subs =>
            ⟨calls, none, { d4 with subnets := subs, tags := resp.tags }⟩

/-- The straight-line tail of `resourceArmRouteTableCreateUpdate` after the
new-resource existence probe (`calls0` carries the probe's call when one was
issued): expands routes (the dead error branch wraps), builds the request,
issues `CreateOrUpdate`, waits on the future, re-fetches — note the bare
`return err` — checks the ID, stores it and delegates to Read. -/
def routeTableCreateUpdateBody (env : RTEnv) (d : RouteTableState)
    (calls0 : List RTCall) : Outcome RTCall RouteTableState :=
  let name := d.name
  let resGroup := d.resourceGroupName
  let loc := azureRMNormalizeLocation d.location
  match expandRouteTableRoutes d.routes with
  | (_, some e) =>
    ⟨calls0, some (.wrapped "Error Expanding list of Route Table Routes" [] e), d⟩
  | (routes, none) =>
    let routeSet : NetworkRouteTable :=
      { name := some name, location := some loc,
        properties := some { routes := some routes,
                             disableBgpRoutePropagation := some d.disableBgpRoutePropagation },
        tags := d.tags }
    let calls1 := calls0 ++ [RTCall.createOrUpdate resGroup name routeSet]
    match env.createOrUpdate with
    | some e =>
      ⟨calls1, some (.wrapped "Error Creating/Updating Route Table" [name, resGroup] e), d⟩
    | none =>
      match env.createWait with
      | some e =>
        ⟨calls1,
         some (.wrapped "Error waiting for completion of Route Table" [name, resGroup] e), d⟩
      | none =>
        let calls2 := calls1 ++ [RTCall.get resGroup name]
        match env.finalGet with
        | .err e => ⟨calls2, some (.bare e), d⟩
        | .notFound e => ⟨calls2, some (.bare e), d⟩
        | .ok read =>
          match read.id with
          | none => ⟨calls2, some (.msg "Cannot read Route Table ID"), d⟩
          | some newId =>
            let ro := resourceArmRouteTableRead env { d with id := newId }
            ⟨calls2 ++ ro.calls, ro.result, ro.state⟩

/-- `resourceArmRouteTableCreateUpdate`: for a brand-new resource, first probes
for an existing remote route table — a non-404 probe error is wrapped, a
non-nil probed ID raises `tf.ImportAsExistsError("azurerm_route_table", *resp.ID)`
— then runs the create/update body. -/
def resourceArmRouteTableCreateUpdate (env : RTEnv) (d : RouteTableState) :
    Outcome RTCall RouteTableState :=
  let name := d.name
  let resGroup := d.resourceGroupName
  if d.isNewResource then
    let probeCalls := [RTCall.get resGroup name]
    match env.probeGet with
    | .err e =>
      ⟨probeCalls,
       some (.wrapped "Error checking for the existence of Route Table" [name, resGroup] e), d⟩
    | .notFound _ => routeTableCreateUpdateBody env d probeCalls
    | .ok resp =>
      match resp.id with
      | some rid => ⟨probeCalls, some (.importAsExists "azurerm_route_table" rid), d⟩
      | none => routeTableCreateUpdateBody env d probeCalls
  else
    routeTableCreateUpdateBody env d []

/-- `resourceArmRouteTableDelete`: parses the ID, issues `Delete` — an error
whose response is not a 404 is wrapped and returned, a 404 falls through —
then waits on the future, wrapping a wait error. -/
def resourceArmRouteTableDelete (env : RTEnv) (d : RouteTableState) :
    Outcome RTCall RouteTableState :=
  match parseAzureResourceID d.id with
  | .error s => ⟨[], some (.parseFail s), d⟩
  | .ok rid =>
    let resGroup := rid.resourceGroup
    let name := pathValue rid "routeTables"
    let calls := [RTCall.delete resGroup name]
    let waitPart : Outcome RTCall RouteTableState :=
      match env.deleteWait with
      | some e =>
        ⟨calls, some (.wrapped "Error waiting for deletion of Route Table" [name, resGroup] e), d⟩
      | none => ⟨calls, none, d⟩
    match env.deleteCall with
    | .err e =>
      ⟨calls, some (.wrapped "Error deleting Route Table" [name, resGroup] e), d⟩
    | .notFound _ => waitPart
    | .ok => waitPart

/-- The four lifecycle callbacks a resource registers with the host engine. -/
structure ResourceHandlers (Env State Call : Type) where
  create : Env → State → Outcome Call State
  read : Env → State → Outcome Call State
  update : Env → State → Outcome Call State
  delete : Env → State → Outcome Call State

/-- `resourceArmRouteTable()`: the registration record; `Create` and `Update`
are the same function `resourceArmRouteTableCreateUpdate`. -/
def resourceArmRouteTable : ResourceHandlers RTEnv RouteTableState RTCall :=
  { create := resourceArmRouteTableCreateUpdate
    read := resourceArmRouteTableRead
    update := resourceArmRouteTableCreateUpdate
    delete := resourceArmRouteTableDelete }

/-- `servicebus.AccessRights`: the rights enum (Listen / Send / Manage). -/
inductive AccessRight where
  | listen
  | send
  | manage
deriving DecidableEq

/-- The local state (`schema.ResourceData`) of a topic authorization-rule
resource instance; `listen`/`send`/`manage` are the boolean rights keys, and
the last four fields are the secret keys/connection strings set by Read. -/
structure SBRuleState where
  id : String
  isNewResource : Bool
  name : String
  namespaceName : String
  topicName : String
  resourceGroupName : String
  listen : Bool
  send : Bool
  manage : Bool
  primaryKey : String
  primaryConnectionString : String
  secondaryKey : String
  secondaryConnectionString : String
deriving DecidableEq

/-- Modelled from the spec: `azure.ExpandServiceBusAuthorizationRuleRights`
(helper outside the two source files) collects the rights granted by the
`listen`/`send`/`manage` booleans of the desired state. -/
def expandServiceBusAuthorizationRuleRights (d : SBRuleState) : List AccessRight :=
  (if d.listen then [AccessRight.listen] else []) ++
    (if d.send then [AccessRight.send] else []) ++
      (if d.manage then [AccessRight.manage] else [])

/-- Modelled from the spec: `azure.FlattenServiceBusAuthorizationRuleRights`
(helper outside the two source files) reports, for each of Listen/Send/Manage,
whether it occurs in the remote rights list. -/
def flattenServiceBusAuthorizationRuleRights (rights : List AccessRight) :
    Bool × Bool × Bool :=
  (rights.contains AccessRight.listen, rights.contains AccessRight.send,
   rights.contains AccessRight.manage)

/-- `servicebus.SBAuthorizationRuleProperties`: the `Rights` list. -/
structure SBRuleProps where
  rights : List AccessRight
deriving DecidableEq

/-- A `servicebus.SBAuthorizationRule` as returned by `GetAuthorizationRule`:
the fields the handlers touch (`ID`, `SBAuthorizationRuleProperties`). -/
structure SBRuleResp where
  id : Option String
  properties : Option SBRuleProps
deriving DecidableEq

/-- The request struct passed to `CreateOrUpdateAuthorizationRule`. -/
structure SBRuleParameters where
  name : Option String
  properties : Option SBRuleProps
deriving DecidableEq

/-- The secrets returned by `ListKeys`; the SDK fields are `*string`
(a nil pointer stores the schema zero value `""`). -/
structure SBKeys where
  primaryKey : Option String
  primaryConnectionString : Option String
  secondaryKey : Option String
  secondaryConnectionString : Option String
deriving DecidableEq

/-- The outcome of one `GetAuthorizationRule` call. -/
inductive SBGetOutcome where
  | ok (resp : SBRuleResp)
  | notFound (e : RemoteError)
  | err (e : RemoteError)
deriving DecidableEq

/-- The outcome of `DeleteAuthorizationRule`.  The handler inspects only
whether the returned error is nil; `notFound` records that the non-nil error
was a 404 ("already absent"), which the handler does not distinguish. -/
inductive SBDeleteOutcome where
  | ok
  | notFound (e : RemoteError)
  | err (e : RemoteError)
deriving DecidableEq

/-- The outcome of `ListKeys`. -/
inductive SBKeysOutcome where
  | ok (keys : SBKeys)
  | err (e : RemoteError)
deriving DecidableEq

/-- A remote call issued by an authorization-rule handler. -/
inductive SBCall where
  | getRule (resGroup namespaceName topicName name : String)
  | createOrUpdateRule (resGroup namespaceName topicName name : String)
      (parameters : SBRuleParameters)
  | listKeys (resGroup namespaceName topicName name : String)
  | deleteRule (resGroup namespaceName topicName name : String)
deriving DecidableEq

/-- The oracle fixing the outcome of each remote call site an
authorization-rule handler can reach. -/
structure SBEnv where
  probeGet : SBGetOutcome
  createOrUpdate : Option RemoteError
  finalGet : SBGetOutcome
  readGet : SBGetOutcome
  listKeys : SBKeysOutcome
  deleteCall : SBDeleteOutcome
deriving DecidableEq

/-- `resourceArmServiceBusTopicAuthorizationRuleRead`: parses the ID, fetches
the rule — not-found clears the ID and succeeds, any other error is wrapped —
refreshes name/topic/namespace/resource-group and (when properties are present)
the three rights booleans, then calls `ListKeys`; a `ListKeys` error is wrapped
and returned with the earlier writes already applied, otherwise the four
secret fields are refreshed. -/
def resourceArmServiceBusTopicAuthorizationRuleRead (env : SBEnv) (d : SBRuleState) :
    Outcome SBCall SBRuleState :=
  match parseAzureResourceID d.id with
  | .error s => ⟨[], some (.parseFail s), d⟩
  | .ok rid =>
    let resGroup := rid.resourceGroup
    let namespaceName := pathValue rid "namespaces"
    let topicName := pathValue rid "topics"
    let name := pathValue rid "authorizationRules"
    let calls := [SBCall.getRule resGroup namespaceName topicName name]
    match env.readGet with
    | .notFound _ => ⟨calls, none, { d with id := "" }⟩
    | .err e =>
      ⟨calls,
       some (.wrapped "Error making Read request on Azure ServiceBus Topic Authorization Rule"
         [name] e), d⟩
    | .ok resp =>
      let d1 := { d with name := name, topicName := topicName,
                         namespaceName := namespaceName, resourceGroupName := resGroup }
      let d2 :=
        match resp.properties with
        | none => d1
        | some props =>
          let rights := flattenServiceBusAuthorizationRuleRights props.rights
          { d1 with listen := rights.1, send := rights.2.1, manage := rights.2.2 }
      let calls2 := calls ++ [SBCall.listKeys resGroup namespaceName topicName name]
      match env.listKeys with
      | .err e =>
        ⟨calls2,
         some (.wrapped
           "Error making Read request on Azure ServiceBus Topic Authorization Rule List Keys"
           [name] e), d2⟩
      | .ok keys =>
        ⟨calls2, none,
         { d2 with primaryKey := keys.primaryKey.getD ""
                   primaryConnectionString := keys.primaryConnectionString.getD ""
                   secondaryKey := keys.secondaryKey.getD ""
                   secondaryConnectionString := keys.secondaryConnectionString.getD "" }⟩

/-- The straight-line tail of the authorization-rule create/update handler
after the existence probe: builds the parameters, issues the (synchronous)
`CreateOrUpdateAuthorizationRule`, re-fetches — note the bare `return err` —
checks the ID, stores it and delegates to Read. -/
def sbRuleCreateUpdateBody (env : SBEnv) (d : SBRuleState) (calls0 : List SBCall) :
    Outcome SBCall SBRuleState :=
  let name := d.name
  let namespaceName := d.namespaceName
  let topicName := d.topicName
  let resourceGroup := d.resourceGroupName
  let parameters : SBRuleParameters :=
    { name := some name,
      properties := some { rights := expandServiceBusAuthorizationRuleRights d } }
  let calls1 := calls0 ++
    [SBCall.createOrUpdateRule resourceGroup namespaceName topicName name parameters]
  match env.createOrUpdate with
  | some e =>
    ⟨calls1,
     some (.wrapped "Error creating/updating ServiceBus Topic Authorization Rule"
       [name, resourceGroup] e), d⟩
  | none =>
    let calls2 := calls1 ++ [SBCall.getRule resourceGroup namespaceName topicName name]
    match env.finalGet with
    | .err e => ⟨calls2, some (.bare e), d⟩
    | .notFound e => ⟨calls2, some (.bare e), d⟩
    | .ok resp =>
      match resp.id with
      | none => ⟨calls2, some (.msg "Cannot read ServiceBus Topic Authorization Rule ID"), d⟩
      | some newId =>
        let ro := resourceArmServiceBusTopicAuthorizationRuleRead env { d with id := newId }
        ⟨calls2 ++ ro.calls, ro.result, ro.state⟩

/-- `resourceArmServiceBusTopicAuthorizationRuleCreateUpdate`: for a brand-new
resource, first probes for an existing remote rule — a non-404 probe error is
wrapped, a non-nil probed ID raises
`tf.ImportAsExistsError("azurerm_servicebus_subscription_rule", *resp.ID)` —
then runs the create/update body. -/
def resourceArmServiceBusTopicAuthorizationRuleCreateUpdate (env : SBEnv)
    (d : SBRuleState) : Outcome SBCall SBRuleState :=
  let name := d.name
  let namespaceName := d.namespaceName
  let topicName := d.topicName
  let resourceGroup := d.resourceGroupName
  if d.isNewResource then
    let probeCalls := [SBCall.getRule resourceGroup namespaceName topicName name]
    match env.probeGet with
    | .err e =>
      ⟨probeCalls,
       some (.wrapped "Error checking for the existence of Service Bus Topic Rule"
         [name, namespaceName, resourceGroup] e), d⟩
    | .notFound _ => sbRuleCreateUpdateBody env d probeCalls
    | .ok resp =>
      match resp.id with
      | some rid =>
        ⟨probeCalls, some (.importAsExists "azurerm_servicebus_subscription_rule" rid), d⟩
      | none => sbRuleCreateUpdateBody env d probeCalls
  else
    sbRuleCreateUpdateBody env d []

/-- `resourceArmServiceBusTopicAuthorizationRuleDelete`: parses the ID and
issues `DeleteAuthorizationRule`; ANY non-nil error from that call — a 404
included — is wrapped and returned (there is no not-found tolerance here). -/
def resourceArmServiceBusTopicAuthorizationRuleDelete (env : SBEnv) (d : SBRuleState) :
    Outcome SBCall SBRuleState :=
  match parseAzureResourceID d.id with
  | .error s => ⟨[], some (.parseFail s), d⟩
  | .ok rid =>
    let resGroup := rid.resourceGroup
    let namespaceName := pathValue rid "namespaces"
    let topicName := pathValue rid "topics"
    let name := pathValue rid "authorizationRules"
    let calls := [SBCall.deleteRule resGroup namespaceName topicName name]
    match env.deleteCall with
    | .ok => ⟨calls, none, d⟩
    | .notFound e =>
      ⟨calls,
       some (.wrapped "Error issuing Azure ARM delete request of ServiceBus Topic Authorization Rule"
         [name, resGroup] e), d⟩
    | .err e =>
      ⟨calls,
       some (.wrapped "Error issuing Azure ARM delete request of ServiceBus Topic Authorization Rule"
         [name, resGroup] e), d⟩

/-- `resourceArmServiceBusTopicAuthorizationRule()`: the registration record;
`Create` and `Update` are the same function. -/
def resourceArmServiceBusTopicAuthorizationRule : ResourceHandlers SBEnv SBRuleState SBCall :=
  { create := resourceArmServiceBusTopicAuthorizationRuleCreateUpdate
    read := resourceArmServiceBusTopicAuthorizationRuleRead
    update := resourceArmServiceBusTopicAuthorizationRuleCreateUpdate
    delete := resourceArmServiceBusTopicAuthorizationRuleDelete }

/-- Whether an error is a bare (unwrapped) remote error. -/
def ProviderError.isBare : ProviderError → Bool
  | .bare _ => true
  | _ => false

/-- Whether an error is the wrap that the route-table create/update handler
would put around a non-nil `expandRouteTableRoutes` error. -/
def isExpandRoutesWrapErr : ProviderError → Bool
  | .wrapped op _ _ => op == "Error Expanding list of Route Table Routes"
  | _ => false

/-- Whether a recorded route-table call is the create/update call. -/
def RTCall.isCreate : RTCall → Bool
  | .createOrUpdate _ _ _ => true
  | _ => false

/-- Whether a recorded authorization-rule call is the create/update call. -/
def SBCall.isCreate : SBCall → Bool
  | .createOrUpdateRule _ _ _ _ _ => true
  | _ => false

/-- Flattening the expansion of a route config list succeeds and produces one
flat record per config, in order, with the scalar fields carried over and the
next-hop IP present exactly when the config value was non-empty. -/
theorem flattenRoutesList_map_expandRoute (cfgs : List RouteConfig) :
    flattenRoutesList (cfgs.map expandRoute) =
      some (cfgs.map (fun c =>
        { name := c.name, addressPrefix := some c.addressPrefix,
          nextHopType := some c.nextHopType,
          nextHopInIpAddress :=
            if c.nextHopInIpAddress = "" then none
            else some c.nextHopInIpAddress })) := by
  induction cfgs with
  | nil => rfl
  | cons c rest ih => simp [flattenRoutesList, flattenRoute, expandRoute, ih]

/-- Claim C1: for every route list in the desired state, expanding it with
`expandRouteTableRoutes` and flattening the resulting routes back with
`flattenRouteTableRoutes` yields a record list with the original name, address
prefix and next-hop type of every route, in the same order. -/
theorem routeTable_expand_flatten_roundtrip (cfgs : List RouteConfig) :
    (flattenRouteTableRoutes (some (expandRouteTableRoutes cfgs).1)).map
        (fun l => l.map (fun f => (f.name, f.addressPrefix, f.nextHopType))) =
      some (cfgs.map (fun c => (c.name, some c.addressPrefix, some c.nextHopType))) := by
  simp [flattenRouteTableRoutes, expandRouteTableRoutes, flattenRoutesList_map_expandRoute]

/-- The route-table Read never returns a bare remote error. -/
theorem rtRead_no_bare (env : RTEnv) (d : RouteTableState) :
    ((resourceArmRouteTableRead env d).result.all (fun e => !(e.isBare))) = true := by
  unfold resourceArmRouteTableRead
  repeat' split
  all_goals simp_all [ProviderError.isBare]

/-- The route-table Read never returns the expand-routes wrap. -/
theorem rtRead_no_expandWrap (env : RTEnv) (d : RouteTableState) :
    ((resourceArmRouteTableRead env d).result.all
      (fun e => !(isExpandRoutesWrapErr e))) = true := by
  unfold resourceArmRouteTableRead
  repeat' split
  all_goals simp_all [isExpandRoutesWrapErr]

/-- The authorization-rule Read never returns a bare remote error. -/
theorem sbRead_no_bare (env : SBEnv) (d : SBRuleState) :
    ((resourceArmServiceBusTopicAuthorizationRuleRead env d).result.all
      (fun e => !(e.isBare))) = true := by
  unfold resourceArmServiceBusTopicAuthorizationRuleRead
  repeat' split
  all_goals simp_all [ProviderError.isBare]

/-- The route-table Delete never returns a bare remote error. -/
theorem rtDelete_no_bare (env : RTEnv) (d : RouteTableState) :
    ((resourceArmRouteTableDelete env d).result.all (fun e => !(e.isBare))) = true := by
  unfold resourceArmRouteTableDelete
  repeat' split
  all_goals simp_all [ProviderError.isBare]

/-- The authorization-rule Delete never returns a bare remote error. -/
theorem sbDelete_no_bare (env : SBEnv) (d : SBRuleState) :
    ((resourceArmServiceBusTopicAuthorizationRuleDelete env d).result.all
      (fun e => !(e.isBare))) = true := by
  unfold resourceArmServiceBusTopicAuthorizationRuleDelete
  repeat' split
  all_goals simp_all [ProviderError.isBare]

/-- The route-table Read result is never a given bare error (pointwise form). -/
theorem rtRead_result_not_bare (env : RTEnv) (d : RouteTableState) (e : RemoteError) :
    (resourceArmRouteTableRead env d).result ≠ some (.bare e) := by
  intro h
  have hc := rtRead_no_bare env d
  rw [h] at hc
  simp [ProviderError.isBare] at hc

/-- The authorization-rule Read result is never a given bare error. -/
theorem sbRead_result_not_bare (env : SBEnv) (d : SBRuleState) (e : RemoteError) :
    (resourceArmServiceBusTopicAuthorizationRuleRead env d).result ≠ some (.bare e) := by
  intro h
  have hc := sbRead_no_bare env d
  rw [h] at hc
  simp [ProviderError.isBare] at hc

/-- If the route-table create/update body returns a bare remote error, that
error is the one reported by the post-create re-fetch `Get`. -/
theorem rtBody_bare_from_finalGet (env : RTEnv) (d : RouteTableState)
    (calls0 : List RTCall) (e : RemoteError) :
    (routeTableCreateUpdateBody env d calls0).result = some (.bare e) →
      env.finalGet = RTGetOutcome.err e ∨ env.finalGet = RTGetOutcome.notFound e := by
  intro h
  unfold routeTableCreateUpdateBody at h
  repeat' split at h
  all_goals first
    | exact absurd h (rtRead_result_not_bare _ _ _)
    | simp_all

/-- If the authorization-rule create/update body returns a bare remote error,
that error is the one reported by the post-create re-fetch. -/
theorem sbBody_bare_from_finalGet (env : SBEnv) (d : SBRuleState)
    (calls0 : List SBCall) (e : RemoteError) :
    (sbRuleCreateUpdateBody env d calls0).result = some (.bare e) →
      env.finalGet = SBGetOutcome.err e ∨ env.finalGet = SBGetOutcome.notFound e := by
  intro h
  unfold sbRuleCreateUpdateBody at h
  repeat' split at h
  all_goals first
    | exact absurd h (sbRead_result_not_bare _ _ _)
    | simp_all

/-- If the route-table Create-or-Update returns a bare remote error, that error
came from the post-create re-fetch `Get`. -/
theorem rtCreateUpdate_bare_from_finalGet (env : RTEnv) (d : RouteTableState)
    (e : RemoteError) :
    (resourceArmRouteTableCreateUpdate env d).result = some (.bare e) →
      env.finalGet = RTGetOutcome.err e ∨ env.finalGet = RTGetOutcome.notFound e := by
  intro h
  unfold resourceArmRouteTableCreateUpdate at h
  repeat' split at h
  all_goals first
    | exact rtBody_bare_from_finalGet env d _ e h
    | simp_all

/-- If the authorization-rule Create-or-Update returns a bare remote error,
that error came from the post-create re-fetch. -/
theorem sbCreateUpdate_bare_from_finalGet (env : SBEnv) (d : SBRuleState)
    (e : RemoteError) :
    (resourceArmServiceBusTopicAuthorizationRuleCreateUpdate env d).result =
        some (.bare e) →
      env.finalGet = SBGetOutcome.err e ∨ env.finalGet = SBGetOutcome.notFound e := by
  intro h
  unfold resourceArmServiceBusTopicAuthorizationRuleCreateUpdate at h
  repeat' split at h
  all_goals first
    | exact sbBody_bare_from_finalGet env d _ e h
    | simp_all

/-- The route-table create/update body never returns the expand-routes wrap
(the expansion error it would wrap is always `nil`). -/
theorem rtBody_no_expandWrap (env : RTEnv) (d : RouteTableState) (calls0 : List RTCall) :
    ((routeTableCreateUpdateBody env d calls0).result.all
      (fun e => !(isExpandRoutesWrapErr e))) = true := by
  unfold routeTableCreateUpdateBody
  repeat' split
  all_goals first
    | exact rtRead_no_expandWrap _ _
    | simp_all [isExpandRoutesWrapErr, expandRouteTableRoutes]

/-- The first call the route-table create/update body reports is the first
call already issued before it (the probe, when one was issued). -/
theorem rtBody_calls_head (env : RTEnv) (d : RouteTableState) (c : RTCall)
    (cs : List RTCall) :
    (routeTableCreateUpdateBody env d (c :: cs)).calls.head? = some c := by
  unfold routeTableCreateUpdateBody
  repeat' split
  all_goals simp

/-- The first call the authorization-rule create/update body reports is the
first call already issued before it. -/
theorem sbBody_calls_head (env : SBEnv) (d : SBRuleState) (c : SBCall)
    (cs : List SBCall) :
    (sbRuleCreateUpdateBody env d (c :: cs)).calls.head? = some c := by
  unfold sbRuleCreateUpdateBody
  repeat' split
  all_goals simp

/-- A sample route-table resource identifier. -/
def rtId0 : String :=
  "/subscriptions/s1/resourceGroups/g1/providers/Microsoft.Network/routeTables/rt1"

/-- A sample authorization-rule resource identifier. -/
def sbId0 : String :=
  "/subscriptions/s1/resourceGroups/g1/providers/Microsoft.ServiceBus/namespaces/ns1/topics/t1/authorizationRules/r1"

/-- A sample route-table local state (an existing, non-new resource). -/
def rtState0 : RouteTableState :=
  { id := rtId0, isNewResource := false, name := "rt1", resourceGroupName := "g1",
    location := "westus", routes := [⟨"r1", "10.0.0.0/16", "VnetLocal", ""⟩],
    disableBgpRoutePropagation := false, subnets := [], tags := [] }

/-- A sample authorization-rule local state (an existing, non-new resource). -/
def sbState0 : SBRuleState :=
  { id := sbId0, isNewResource := false, name := "r1", namespaceName := "ns1",
    topicName := "t1", resourceGroupName := "g1", listen := true, send := false,
    manage := false, primaryKey := "pk", primaryConnectionString := "pcs",
    secondaryKey := "sk", secondaryConnectionString := "scs" }

/-- The sample route-table state marked brand-new. -/
def rtState0Fresh : RouteTableState :=
  { rtState0 with isNewResource := true }

/-- The sample authorization-rule state marked brand-new. -/
def sbState0Fresh : SBRuleState :=
  { sbState0 with isNewResource := true }

/-- A route-table remote environment whose existence probe finds a resource
with ID `"remote-id"`. -/
def rtEnvExisting : RTEnv :=
  { probeGet := .ok ⟨some "remote-id", none, none, []⟩, createOrUpdate := none,
    createWait := none, finalGet := .notFound ⟨"404"⟩, readGet := .notFound ⟨"404"⟩,
    deleteCall := .ok, deleteWait := none }

/-- An authorization-rule remote environment whose existence probe finds a
resource with ID `"remote-id"`. -/
def sbEnvExisting : SBEnv :=
  { probeGet := .ok ⟨some "remote-id", none⟩, createOrUpdate := none,
    finalGet := .notFound ⟨"404"⟩, readGet := .notFound ⟨"404"⟩,
    listKeys := .err ⟨"404"⟩, deleteCall := .ok }

/-- The parse of `rtId0`. -/
def rtRid0 : AzureResourceID :=
  { resourceGroup := "g1",
    path := [("subscriptions", "s1"), ("resourceGroups", "g1"),
             ("providers", "Microsoft.Network"), ("routeTables", "rt1")] }

/-- The parse of `sbId0`. -/
def sbRid0 : AzureResourceID :=
  { resourceGroup := "g1",
    path := [("subscriptions", "s1"), ("resourceGroups", "g1"),
             ("providers", "Microsoft.ServiceBus"), ("namespaces", "ns1"),
             ("topics", "t1"), ("authorizationRules", "r1")] }

/-- A route-table environment whose Read-site `Get` reports not-found. -/
def rtEnvNotFound : RTEnv :=
  { probeGet := .notFound ⟨"404"⟩, createOrUpdate := none, createWait := none,
    finalGet := .notFound ⟨"404"⟩, readGet := .notFound ⟨"404"⟩,
    deleteCall := .ok, deleteWait := none }

/-- A route-table environment whose Read-site `Get` reports a non-404 error. -/
def rtEnvReadErr : RTEnv :=
  { rtEnvNotFound with readGet := .err ⟨"500 internal error"⟩ }

/-- An authorization-rule environment whose Read-site fetch reports not-found. -/
def sbEnvNotFound : SBEnv :=
  { probeGet := .notFound ⟨"404"⟩, createOrUpdate := none,
    finalGet := .notFound ⟨"404"⟩, readGet := .notFound ⟨"404"⟩,
    listKeys := .err ⟨"404"⟩, deleteCall := .ok }

/-- An authorization-rule environment whose Read-site fetch reports a non-404
error. -/
def sbEnvReadErr : SBEnv :=
  { sbEnvNotFound with readGet := .err ⟨"500 internal error"⟩ }

/-- A route-table environment where the delete call reports not-found and the
subsequent wait succeeds. -/
def rtEnvDeleteGone : RTEnv :=
  { rtEnvNotFound with deleteCall := .notFound ⟨"404: route table not found"⟩ }

/-- An authorization-rule environment where the delete call reports
not-found. -/
def sbEnvDeleteGone : SBEnv :=
  { sbEnvNotFound with deleteCall := .notFound ⟨"404: rule not found"⟩ }

/-- A route-table environment where create and wait succeed but the
post-create re-fetch `Get` fails with a non-404 error. -/
def rtEnvFinalGetErr : RTEnv :=
  { rtEnvNotFound with finalGet := .err ⟨"boom"⟩ }

/-- An authorization-rule environment where create succeeds but the
post-create re-fetch fails with a non-404 error. -/
def sbEnvFinalGetErr : SBEnv :=
  { sbEnvNotFound with finalGet := .err ⟨"boom"⟩ }

/-- An authorization-rule environment where the Read-site fetch succeeds (with
properties granting Listen) but `ListKeys` fails. -/
def sbEnvKeysFail : SBEnv :=
  { sbEnvNotFound with
      readGet := .ok ⟨some "remote-id", some ⟨[AccessRight.listen]⟩⟩
      listKeys := .err ⟨"keys boom"⟩ }

/-- Claim C5: for every route entry, the route built by
`expandRouteTableRoutes` carries no `NextHopIPAddress` when the configured
`next_hop_in_ip_address` is the empty string, and carries exactly the
configured value when it is non-empty. -/
theorem expand_omits_empty_nextHopIpAddress (cfgs : List RouteConfig) :
    ((expandRouteTableRoutes cfgs).1).map
        (fun r => r.routePropertiesFormat.map (fun p => p.nextHopIPAddress)) =
      cfgs.map (fun c =>
        some (if c.nextHopInIpAddress = "" then none else some c.nextHopInIpAddress)) := by
  simp [expandRouteTableRoutes, expandRoute]

/-- Claim C7: `expandRouteTableRoutes` returns a nil error on every input, and
the non-nil error branch of its caller is unreachable: the route-table
Create-or-Update never returns the wrap that branch would build. -/
theorem expandRouteTableRoutes_never_errors :
    (∀ cfgs, (expandRouteTableRoutes cfgs).2 = none) ∧
    (∀ (env : RTEnv) (d : RouteTableState),
      ((resourceArmRouteTableCreateUpdate env d).result.all
        (fun e => !(isExpandRoutesWrapErr e))) = true) := by
  refine ⟨fun cfgs => rfl, fun env d => ?_⟩
  unfold resourceArmRouteTableCreateUpdate
  repeat' split
  all_goals first
    | exact rtBody_no_expandWrap _ _ _
    | simp_all [isExpandRoutesWrapErr]

/-- Claim C2: on a brand-new resource, when the existence probe succeeds and
reports a remote resource with a non-nil ID, both Create-or-Update handlers
fail with the distinct import-conflict error carrying that ID and issue no
create/update call. -/
theorem createUpdate_importAsExists_on_existing :
    (∀ (env : RTEnv) (d : RouteTableState) (resp : RouteTableResp) (i : String),
      d.isNewResource = true → env.probeGet = RTGetOutcome.ok resp → resp.id = some i →
        (resourceArmRouteTableCreateUpdate env d).result =
            some (.importAsExists "azurerm_route_table" i) ∧
          ((resourceArmRouteTableCreateUpdate env d).calls.all
            (fun c => !(c.isCreate))) = true) ∧
    (∀ (env : SBEnv) (d : SBRuleState) (resp : SBRuleResp) (i : String),
      d.isNewResource = true → env.probeGet = SBGetOutcome.ok resp → resp.id = some i →
        (resourceArmServiceBusTopicAuthorizationRuleCreateUpdate env d).result =
            some (.importAsExists "azurerm_servicebus_subscription_rule" i) ∧
          ((resourceArmServiceBusTopicAuthorizationRuleCreateUpdate env d).calls.all
            (fun c => !(c.isCreate))) = true) := by
  constructor
  · intro env d resp i hnew hprobe hid
    unfold resourceArmRouteTableCreateUpdate
    simp [hnew, hprobe, hid, RTCall.isCreate]
  · intro env d resp i hnew hprobe hid
    unfold resourceArmServiceBusTopicAuthorizationRuleCreateUpdate
    simp [hnew, hprobe, hid, SBCall.isCreate]

/-- Claim C2, witness: a concrete brand-new state and an environment whose
probe finds a remote resource with ID `"remote-id"`. -/
theorem createUpdate_importAsExists_on_existing_witness :
    ((rtState0Fresh.isNewResource = true) ∧
      (resourceArmRouteTableCreateUpdate rtEnvExisting rtState0Fresh).result =
          some (.importAsExists "azurerm_route_table" "remote-id") ∧
        ((resourceArmRouteTableCreateUpdate rtEnvExisting rtState0Fresh).calls.all
          (fun c => !(c.isCreate))) = true) ∧
    ((sbState0Fresh.isNewResource = true) ∧
      (resourceArmServiceBusTopicAuthorizationRuleCreateUpdate sbEnvExisting sbState0Fresh).result =
          some (.importAsExists "azurerm_servicebus_subscription_rule" "remote-id") ∧
        ((resourceArmServiceBusTopicAuthorizationRuleCreateUpdate sbEnvExisting sbState0Fresh).calls.all
          (fun c => !(c.isCreate))) = true) :=
  ⟨⟨rfl, createUpdate_importAsExists_on_existing.1 rtEnvExisting rtState0Fresh
      ⟨some "remote-id", none, none, []⟩ "remote-id" rfl rfl rfl⟩,
   ⟨rfl, createUpdate_importAsExists_on_existing.2 sbEnvExisting sbState0Fresh
      ⟨some "remote-id", none⟩ "remote-id" rfl rfl rfl⟩⟩

/-- Claim C3: in both adapters, when the Read-site fetch reports not-found,
Read clears the local identifier and returns a nil error; when it reports any
other error, Read returns a non-nil error and leaves the identifier
unchanged. -/
theorem read_notFound_clears_id :
    (∀ (env : RTEnv) (d : RouteTableState) (rid : AzureResourceID) (e : RemoteError),
      parseAzureResourceID d.id = .ok rid → env.readGet = RTGetOutcome.notFound e →
        (resourceArmRouteTableRead env d).result = none ∧
          (resourceArmRouteTableRead env d).state.id = "") ∧
    (∀ (env : RTEnv) (d : RouteTableState) (rid : AzureResourceID) (e : RemoteError),
      parseAzureResourceID d.id = .ok rid → env.readGet = RTGetOutcome.err e →
        ((resourceArmRouteTableRead env d).result).isSome = true ∧
          (resourceArmRouteTableRead env d).state.id = d.id) ∧
    (∀ (env : SBEnv) (d : SBRuleState) (rid : AzureResourceID) (e : RemoteError),
      parseAzureResourceID d.id = .ok rid → env.readGet = SBGetOutcome.notFound e →
        (resourceArmServiceBusTopicAuthorizationRuleRead env d).result = none ∧
          (resourceArmServiceBusTopicAuthorizationRuleRead env d).state.id = "") ∧
    (∀ (env : SBEnv) (d : SBRuleState) (rid : AzureResourceID) (e : RemoteError),
      parseAzureResourceID d.id = .ok rid → env.readGet = SBGetOutcome.err e →
        ((resourceArmServiceBusTopicAuthorizationRuleRead env d).result).isSome = true ∧
          (resourceArmServiceBusTopicAuthorizationRuleRead env d).state.id = d.id) := by
  refine ⟨?_, ?_, ?_, ?_⟩ <;> intro env d rid e hp hg
  · unfold resourceArmRouteTableRead
    simp [hp, hg]
  · unfold resourceArmRouteTableRead
    simp [hp, hg]
  · unfold resourceArmServiceBusTopicAuthorizationRuleRead
    simp [hp, hg]
  · unfold resourceArmServiceBusTopicAuthorizationRuleRead
    simp [hp, hg]

/-- Claim C3, witness: both adapters at a parseable identifier, once with a
not-found fetch and once with a non-404 fetch error. -/
theorem read_notFound_clears_id_witness :
    ((parseAzureResourceID rtState0.id = .ok rtRid0) ∧
      (resourceArmRouteTableRead rtEnvNotFound rtState0).result = none ∧
        (resourceArmRouteTableRead rtEnvNotFound rtState0).state.id = "") ∧
    (((resourceArmRouteTableRead rtEnvReadErr rtState0).result).isSome = true ∧
      (resourceArmRouteTableRead rtEnvReadErr rtState0).state.id = rtState0.id) ∧
    ((resourceArmServiceBusTopicAuthorizationRuleRead sbEnvNotFound sbState0).result = none ∧
      (resourceArmServiceBusTopicAuthorizationRuleRead sbEnvNotFound sbState0).state.id = "") ∧
    (((resourceArmServiceBusTopicAuthorizationRuleRead sbEnvReadErr sbState0).result).isSome = true ∧
      (resourceArmServiceBusTopicAuthorizationRuleRead sbEnvReadErr sbState0).state.id =
        sbState0.id) :=
  ⟨⟨by rfl, read_notFound_clears_id.1 rtEnvNotFound rtState0 rtRid0 ⟨"404"⟩ (by rfl) (by rfl)⟩,
   read_notFound_clears_id.2.1 rtEnvReadErr rtState0 rtRid0 ⟨"500 internal error"⟩
     (by rfl) (by rfl),
   read_notFound_clears_id.2.2.1 sbEnvNotFound sbState0 sbRid0 ⟨"404"⟩ (by rfl) (by rfl),
   read_notFound_clears_id.2.2.2 sbEnvReadErr sbState0 sbRid0 ⟨"500 internal error"⟩
     (by rfl) (by rfl)⟩

/-- Claim C4, counterexample: the claim asserts that both adapters return a
nil error when the delete call reports not-found; the authorization-rule
Delete instead wraps and returns that very error (its code has no not-found
tolerance at all). -/
theorem sbRule_delete_notFound_returns_error :
    (resourceArmServiceBusTopicAuthorizationRuleDelete sbEnvDeleteGone sbState0).result =
      some (.wrapped
        "Error issuing Azure ARM delete request of ServiceBus Topic Authorization Rule"
        ["r1", "g1"] ⟨"404: rule not found"⟩) := by
  rfl

/-- Claim C4 as amended: the route-table Delete tolerates a not-found from the
delete call — it does not return at that point and returns a nil error
provided the subsequent wait on the delete future reports no error — while the
authorization-rule Delete returns a (wrapped, non-nil) error whenever the
delete call errors, a not-found included. -/
theorem delete_absent_tolerance_amended :
    (∀ (env : RTEnv) (d : RouteTableState) (rid : AzureResourceID) (e : RemoteError),
      parseAzureResourceID d.id = .ok rid →
        env.deleteCall = RTDeleteOutcome.notFound e → env.deleteWait = none →
          (resourceArmRouteTableDelete env d).result = none) ∧
    (∀ (env : SBEnv) (d : SBRuleState) (rid : AzureResourceID) (e : RemoteError),
      parseAzureResourceID d.id = .ok rid → env.deleteCall = SBDeleteOutcome.notFound e →
        ((resourceArmServiceBusTopicAuthorizationRuleDelete env d).result).isSome = true) := by
  constructor
  · intro env d rid e hp hc hw
    unfold resourceArmRouteTableDelete
    simp [hp, hc, hw]
  · intro env d rid e hp hc
    unfold resourceArmServiceBusTopicAuthorizationRuleDelete
    simp [hp, hc]

/-- Claim C4, witness for the amended statement: concrete already-absent
deletions for both adapters. -/
theorem delete_absent_tolerance_amended_witness :
    ((parseAzureResourceID rtState0.id = .ok rtRid0) ∧
      (resourceArmRouteTableDelete rtEnvDeleteGone rtState0).result = none) ∧
    ((parseAzureResourceID sbState0.id = .ok sbRid0) ∧
      ((resourceArmServiceBusTopicAuthorizationRuleDelete sbEnvDeleteGone sbState0).result).isSome =
        true) :=
  ⟨⟨by rfl, delete_absent_tolerance_amended.1 rtEnvDeleteGone rtState0 rtRid0
      ⟨"404: route table not found"⟩ (by rfl) (by rfl) (by rfl)⟩,
   ⟨by rfl, delete_absent_tolerance_amended.2 sbEnvDeleteGone sbState0 sbRid0
      ⟨"404: rule not found"⟩ (by rfl) (by rfl)⟩⟩

/-- Claim C6, counterexample: the claim asserts that no failure path returns a
remote API error bare; the route-table Create-or-Update's post-create re-fetch
does exactly that (`return err` with no wrapping). -/
theorem routeTable_createUpdate_bare_error_exists :
    (resourceArmRouteTableCreateUpdate rtEnvFinalGetErr rtState0).result =
      some (.bare ⟨"boom"⟩) := by
  rfl

/-- Claim C6 as amended: in both adapters every error Read and Delete return is
wrapped (or a parse failure / panic marker, neither of which is a remote API
error), and Create-or-Update wraps every failure except the post-create
re-fetch, whose remote error — the only bare error any operation can return —
is propagated unwrapped. -/
theorem errors_wrapped_except_postcreate_refetch :
    (∀ (env : RTEnv) (d : RouteTableState) (e : RemoteError),
      (resourceArmRouteTableCreateUpdate env d).result = some (.bare e) →
        env.finalGet = RTGetOutcome.err e ∨ env.finalGet = RTGetOutcome.notFound e) ∧
    (∀ (env : SBEnv) (d : SBRuleState) (e : RemoteError),
      (resourceArmServiceBusTopicAuthorizationRuleCreateUpdate env d).result =
          some (.bare e) →
        env.finalGet = SBGetOutcome.err e ∨ env.finalGet = SBGetOutcome.notFound e) ∧
    (∀ (env : RTEnv) (d : RouteTableState),
      ((resourceArmRouteTableRead env d).result.all (fun e => !(e.isBare))) = true) ∧
    (∀ (env : SBEnv) (d : SBRuleState),
      ((resourceArmServiceBusTopicAuthorizationRuleRead env d).result.all
        (fun e => !(e.isBare))) = true) ∧
    (∀ (env : RTEnv) (d : RouteTableState),
      ((resourceArmRouteTableDelete env d).result.all (fun e => !(e.isBare))) = true) ∧
    (∀ (env : SBEnv) (d : SBRuleState),
      ((resourceArmServiceBusTopicAuthorizationRuleDelete env d).result.all
        (fun e => !(e.isBare))) = true) :=
  ⟨rtCreateUpdate_bare_from_finalGet, sbCreateUpdate_bare_from_finalGet,
   rtRead_no_bare, sbRead_no_bare, rtDelete_no_bare, sbDelete_no_bare⟩

/-- Claim C6, witness for the amended statement: concrete environments in which
each adapter's Create-or-Update returns a bare error, traced back to the
post-create re-fetch. -/
theorem errors_wrapped_except_postcreate_refetch_witness :
    ((resourceArmRouteTableCreateUpdate rtEnvFinalGetErr rtState0).result =
        some (.bare ⟨"boom"⟩) ∧
      (rtEnvFinalGetErr.finalGet = RTGetOutcome.err ⟨"boom"⟩ ∨
        rtEnvFinalGetErr.finalGet = RTGetOutcome.notFound ⟨"boom"⟩)) ∧
    ((resourceArmServiceBusTopicAuthorizationRuleCreateUpdate sbEnvFinalGetErr sbState0).result =
        some (.bare ⟨"boom"⟩) ∧
      (sbEnvFinalGetErr.finalGet = SBGetOutcome.err ⟨"boom"⟩ ∨
        sbEnvFinalGetErr.finalGet = SBGetOutcome.notFound ⟨"boom"⟩)) :=
  ⟨⟨by rfl, errors_wrapped_except_postcreate_refetch.1 rtEnvFinalGetErr rtState0
      ⟨"boom"⟩ (by rfl)⟩,
   ⟨by rfl, errors_wrapped_except_postcreate_refetch.2.1 sbEnvFinalGetErr sbState0
      ⟨"boom"⟩ (by rfl)⟩⟩

/-- Claim C8: in both resource registrations `Update` is the same function as
`Create`; when the resource is not brand-new the handler's behaviour is
independent of the existence-probe outcome (the probe does not run), and when
it is brand-new the first remote call issued is the probe fetch. -/
theorem update_same_function_as_create :
    (resourceArmRouteTable.update = resourceArmRouteTable.create) ∧
    (resourceArmServiceBusTopicAuthorizationRule.update =
      resourceArmServiceBusTopicAuthorizationRule.create) ∧
    (∀ (env : RTEnv) (g : RTGetOutcome) (d : RouteTableState),
      d.isNewResource = false →
        resourceArmRouteTableCreateUpdate { env with probeGet := g } d =
          resourceArmRouteTableCreateUpdate env d) ∧
    (∀ (env : SBEnv) (g : SBGetOutcome) (d : SBRuleState),
      d.isNewResource = false →
        resourceArmServiceBusTopicAuthorizationRuleCreateUpdate { env with probeGet := g } d =
          resourceArmServiceBusTopicAuthorizationRuleCreateUpdate env d) ∧
    (∀ (env : RTEnv) (d : RouteTableState),
      d.isNewResource = true →
        (resourceArmRouteTableCreateUpdate env d).calls.head? =
          some (RTCall.get d.resourceGroupName d.name)) ∧
    (∀ (env : SBEnv) (d : SBRuleState),
      d.isNewResource = true →
        (resourceArmServiceBusTopicAuthorizationRuleCreateUpdate env d).calls.head? =
          some (SBCall.getRule d.resourceGroupName d.namespaceName d.topicName d.name)) := by
  refine ⟨rfl, rfl, ?_, ?_, ?_, ?_⟩
  · intro env g d h
    unfold resourceArmRouteTableCreateUpdate
    simp only [h, Bool.false_eq_true, if_false]
    cases env
    rfl
  · intro env g d h
    unfold resourceArmServiceBusTopicAuthorizationRuleCreateUpdate
    simp only [h, Bool.false_eq_true, if_false]
    cases env
    rfl
  · intro env d h
    unfold resourceArmRouteTableCreateUpdate
    rcases hp : env.probeGet with resp | e | e
    · rcases hid : resp.id with _ | i
      · simp [h, hp, hid, rtBody_calls_head]
      · simp [h, hp, hid]
    · simp [h, hp, rtBody_calls_head]
    · simp [h, hp]
  · intro env d h
    unfold resourceArmServiceBusTopicAuthorizationRuleCreateUpdate
    rcases hp : env.probeGet with resp | e | e
    · rcases hid : resp.id with _ | i
      · simp [h, hp, hid, sbBody_calls_head]
      · simp [h, hp, hid]
    · simp [h, hp, sbBody_calls_head]
    · simp [h, hp]

/-- Claim C8, witness: a non-new state on which replacing the probe outcome
leaves both handlers' outcomes unchanged, and a brand-new state on which the
first issued call is the probe fetch. -/
theorem update_same_function_as_create_witness :
    ((rtState0.isNewResource = false) ∧
      resourceArmRouteTableCreateUpdate { rtEnvNotFound with probeGet := .err ⟨"x"⟩ } rtState0 =
        resourceArmRouteTableCreateUpdate rtEnvNotFound rtState0) ∧
    (resourceArmServiceBusTopicAuthorizationRuleCreateUpdate
        { sbEnvNotFound with probeGet := .err ⟨"x"⟩ } sbState0 =
      resourceArmServiceBusTopicAuthorizationRuleCreateUpdate sbEnvNotFound sbState0) ∧
    ((rtState0Fresh.isNewResource = true) ∧
      (resourceArmRouteTableCreateUpdate rtEnvNotFound rtState0Fresh).calls.head? =
        some (RTCall.get rtState0Fresh.resourceGroupName rtState0Fresh.name)) ∧
    ((resourceArmServiceBusTopicAuthorizationRuleCreateUpdate sbEnvNotFound sbState0Fresh).calls.head? =
      some (SBCall.getRule sbState0Fresh.resourceGroupName sbState0Fresh.namespaceName
        sbState0Fresh.topicName sbState0Fresh.name)) :=
  ⟨⟨rfl, update_same_function_as_create.2.2.1 rtEnvNotFound (.err ⟨"x"⟩) rtState0 rfl⟩,
   update_same_function_as_create.2.2.2.1 sbEnvNotFound (.err ⟨"x"⟩) sbState0 rfl,
   ⟨rfl, update_same_function_as_create.2.2.2.2.1 rtEnvNotFound rtState0Fresh rfl⟩,
   update_same_function_as_create.2.2.2.2.2 sbEnvNotFound sbState0Fresh rfl⟩

/-- Claim C9, counterexample: the claim asserts one output entry per input
element for every input; a route whose `Name` pointer is nil makes
`flattenRouteTableRoutes` dereference nil (a runtime panic, modelled `none`)
instead of producing a one-entry list. -/
theorem flattenRouteTableRoutes_panics_on_nil_name :
    flattenRouteTableRoutes (some [{ name := none, routePropertiesFormat := none }]) =
      none := by
  rfl

/-- Claim C9 as amended: a nil input slice flattens to an empty (non-nil)
list in both flatteners; a slice all of whose elements flatten without a nil
dereference (route name present, address prefix present when properties are,
subnet ID present) flattens to exactly one output entry per input element, in
input order; an element with a nil dereferenced pointer panics instead. -/
theorem flatten_nil_and_per_element_amended :
    (flattenRouteTableRoutes none = some []) ∧
    (flattenRouteTableSubnets none = some []) ∧
    (∀ rs : List NetworkRoute, (∀ r ∈ rs, (flattenRoute r).isSome = true) →
      flattenRouteTableRoutes (some rs) =
        some (rs.map (fun r => (flattenRoute r).getD ⟨"", none, none, none⟩))) ∧
    (∀ ss : List NetworkSubnet, (∀ s ∈ ss, (s.id).isSome = true) →
      flattenRouteTableSubnets (some ss) =
        some (ss.map (fun s => (s.id).getD ""))) := by
  refine ⟨rfl, rfl, ?_, ?_⟩
  · intro rs h
    induction rs with
    | nil => rfl
    | cons r rest ih =>
      have hr := h r (by simp)
      obtain ⟨f, hf⟩ := Option.isSome_iff_exists.mp hr
      have ih' := ih (fun x hx => h x (by simp [hx]))
      simp only [flattenRouteTableRoutes] at ih' ⊢
      simp [flattenRoutesList, hf, ih']
  · intro ss h
    induction ss with
    | nil => rfl
    | cons s rest ih =>
      have hs := h s (by simp)
      obtain ⟨i, hi⟩ := Option.isSome_iff_exists.mp hs
      have ih' := ih (fun x hx => h x (by simp [hx]))
      simp only [flattenRouteTableSubnets] at ih' ⊢
      simp [flattenSubnetsList, hi, ih']

/-- Claim C9, witness for the amended statement: concrete one-element slices
whose pointers are all present flatten to one entry each. -/
theorem flatten_nil_and_per_element_amended_witness :
    ((∀ r ∈ [(⟨some "r1", some ⟨some "10.0.0.0/16", "VnetLocal", none⟩⟩ : NetworkRoute)],
        (flattenRoute r).isSome = true) ∧
      flattenRouteTableRoutes
          (some [⟨some "r1", some ⟨some "10.0.0.0/16", "VnetLocal", none⟩⟩]) =
        some ([(⟨some "r1", some ⟨some "10.0.0.0/16", "VnetLocal", none⟩⟩ : NetworkRoute)].map
          (fun r => (flattenRoute r).getD ⟨"", none, none, none⟩))) ∧
    ((∀ s ∈ [(⟨some "subnet-id"⟩ : NetworkSubnet)], (s.id).isSome = true) ∧
      flattenRouteTableSubnets (some [⟨some "subnet-id"⟩]) =
        some ([(⟨some "subnet-id"⟩ : NetworkSubnet)].map (fun s => (s.id).getD ""))) :=
  ⟨⟨by decide, flatten_nil_and_per_element_amended.2.2.1
      [⟨some "r1", some ⟨some "10.0.0.0/16", "VnetLocal", none⟩⟩] (by decide)⟩,
   ⟨by decide, flatten_nil_and_per_element_amended.2.2.2 [⟨some "subnet-id"⟩] (by decide)⟩⟩

/-- Claim C10: the authorization-rule Read writes name, topic, namespace,
resource group and the rights booleans before calling `ListKeys`; when
`ListKeys` fails, Read returns the wrapped error with those fields already
refreshed while the four secret fields keep their previous values. -/
theorem sbRule_read_not_atomic_on_listKeys_error :
    ∀ (env : SBEnv) (d : SBRuleState) (rid : AzureResourceID) (resp : SBRuleResp)
      (props : SBRuleProps) (e : RemoteError),
      parseAzureResourceID d.id = .ok rid → env.readGet = SBGetOutcome.ok resp →
        resp.properties = some props → env.listKeys = SBKeysOutcome.err e →
          (resourceArmServiceBusTopicAuthorizationRuleRead env d).result =
              some (.wrapped
                "Error making Read request on Azure ServiceBus Topic Authorization Rule List Keys"
                [pathValue rid "authorizationRules"] e) ∧
            (resourceArmServiceBusTopicAuthorizationRuleRead env d).state =
              { d with
                  name := pathValue rid "authorizationRules"
                  topicName := pathValue rid "topics"
                  namespaceName := pathValue rid "namespaces"
                  resourceGroupName := rid.resourceGroup
                  listen := (flattenServiceBusAuthorizationRuleRights props.rights).1
                  send := (flattenServiceBusAuthorizationRuleRights props.rights).2.1
                  manage := (flattenServiceBusAuthorizationRuleRights props.rights).2.2 } := by
  intro env d rid resp props e hp hg hprops hk
  unfold resourceArmServiceBusTopicAuthorizationRuleRead
  simp [hp, hg, hprops, hk]

/-- Claim C10, witness: a concrete rule whose key listing fails; the identity
fields and rights are refreshed, the secrets keep their old values. -/
theorem sbRule_read_not_atomic_on_listKeys_error_witness :
    ((parseAzureResourceID sbState0.id = .ok sbRid0) ∧
      (resourceArmServiceBusTopicAuthorizationRuleRead sbEnvKeysFail sbState0).result =
          some (.wrapped
            "Error making Read request on Azure ServiceBus Topic Authorization Rule List Keys"
            [pathValue sbRid0 "authorizationRules"] ⟨"keys boom"⟩) ∧
        (resourceArmServiceBusTopicAuthorizationRuleRead sbEnvKeysFail sbState0).state =
          { sbState0 with
              name := pathValue sbRid0 "authorizationRules"
              topicName := pathValue sbRid0 "topics"
              namespaceName := pathValue sbRid0 "namespaces"
              resourceGroupName := sbRid0.resourceGroup
              listen := (flattenServiceBusAuthorizationRuleRights [AccessRight.listen]).1
              send := (flattenServiceBusAuthorizationRuleRights [AccessRight.listen]).2.1
              manage := (flattenServiceBusAuthorizationRuleRights [AccessRight.listen]).2.2 }) :=
  ⟨by rfl, sbRule_read_not_atomic_on_listKeys_error sbEnvKeysFail sbState0 sbRid0
    ⟨some "remote-id", some ⟨[AccessRight.listen]⟩⟩ ⟨[AccessRight.listen]⟩ ⟨"keys boom"⟩
    (by rfl) (by rfl) (by rfl) (by rfl)⟩

